import Mathlib

/-!
Shallow embedding of the `ddtrace_graphql` package (files
`ddtrace_graphql/utils.py` and `ddtrace_graphql/base.py`) and proofs about
its result-classification and span annotation logic.

Modelling conventions:
* Python strings are Lean `String` (with `List Char` used for the
  character-level algorithm of `resolve_query_res`).
* A Python object attribute that may be missing is an `Option` field;
  `hasattr` is `Option.isSome` and a raw attribute access is a fallible
  operation in the `PyM` monad (raising `AttributeError` when absent),
  so "the code never raises" is a provable statement, not a triviality.
* `json.dumps(x, indent=2)` is modelled as producing the JSON value `x`
  itself (serialisation to text is abstracted away).
* `isinstance(obj, ignore_exceptions)` is modelled nominally: membership
  of the object's type name in the caller-supplied list of type names.
* Exception objects always expose a traceback field, mirroring CPython
  where every `BaseException` instance carries `__traceback__` (graphql
  stores `Optional[Exception]` in `original_error`).
-/

namespace DdtraceGraphql

/-- A JSON value, the shape of what `json.dumps` serialises. -/
inductive Json where
  | str : String → Json
  | num : Int → Json
  | obj : List (String × Json) → Json
  | arr : List Json → Json
deriving Repr

/-- The part of a Python object visible to the classifier: its `str()`
representation, its type name, whether it is an `Exception` instance,
whether it is the `None` object, and its traceback lines (meaningful for
exception instances; `traceback.print_exception` output is modelled as a
function of these lines). -/
structure PyBase where
  strRepr : String
  typeName : String
  isExc : Bool
  isNone : Bool
  tb : List String
deriving Repr

/-- An entry of `result.errors`: a graphql error object.  Beyond the plain
object data it may carry `message`, `formatted` and `original_error`
attributes (each possibly missing), and it is or is not an instance of
`graphql.error.GraphQLError`. -/
structure GErr extends PyBase where
  isGraphQLError : Bool
  message : Option String
  formatted : Option Json
  original : Option PyBase
deriving Repr

/-- `graphql.ExecutionResult` as seen by this package: optional `data`,
optional `errors` list (`none` models Python `None`), and an `invalid`
attribute that newer graphql-core versions do not define (`none` models
an absent attribute). -/
structure ExecutionResult where
  data : Option Json
  errors : Option (List GErr)
  invalid : Option Bool
deriving Repr

/-- Python exceptions the embedded code can raise. -/
inductive PyExc where
  | attributeError : String → PyExc
  | typeError : String → PyExc
  | indexError : PyExc
deriving Repr, DecidableEq

/-- Fallible Python computations. -/
abbrev PyM (α : Type) := Except PyExc α

/-- Raw attribute access: raises `AttributeError` when the attribute is
absent. -/
def getattrOr (v : Option α) (name : String) : PyM α :=
  match v with
  | some x => Except.ok x
  | none => Except.error (PyExc.attributeError name)

/-- Python truthiness of `result.errors`: a non-`None`, non-empty list. -/
def errorsTruthy (result : ExecutionResult) : Bool :=
  match result.errors with
  | some l => !l.isEmpty
  | none => false

/-- The raw errors list (only inspected by the code on paths where
`result.errors` is known to be a list). -/
def rawErrors (result : ExecutionResult) : List GErr :=
  result.errors.getD []

/-! ## ddtrace_graphql/utils.py -/

/-- `utils.original_error`: `err.original_error if hasattr(err,
'original_error') else err`. -/
def original_error (err : GErr) : PyBase :=
  match err.original with
  | some o => o
  | none => err.toPyBase

/-- `utils.format_error`: `formatted` attribute if present, else a
`{"message": ...}` object from the `message` attribute, else from
`str(error)`.  Attribute reads are raw accesses guarded by `hasattr`. -/
def format_error (error : GErr) : PyM Json :=
  if error.formatted.isSome then do
    let f ← getattrOr error.formatted "formatted"
    pure f
  else if error.message.isSome then do
    let m ← getattrOr error.message "message"
    pure (Json.obj [("message", Json.str m)])
  else
    pure (Json.obj [("message", Json.str error.strRepr)])

/-- Pure companion of `format_error`. -/
def formatErrorP (error : GErr) : Json :=
  match error.formatted with
  | some f => f
  | none =>
    match error.message with
    | some m => Json.obj [("message", Json.str m)]
    | none => Json.obj [("message", Json.str error.strRepr)]

/-- One entry of the list comprehension in `utils.format_errors`:
`format_error(err) if hasattr(err, 'message') else str(err)`. -/
def formatErrorsEntry (err : GErr) : PyM Json :=
  if err.message.isSome then format_error err
  else pure (Json.str err.strRepr)

/-- Pure companion of `formatErrorsEntry`. -/
def formatErrorsEntryP (err : GErr) : Json :=
  if err.message.isSome then formatErrorP err
  else Json.str err.strRepr

/-- The list comprehension in `utils.format_errors`. -/
def formatErrorsList : List GErr → PyM (List Json)
  | [] => pure []
  | err :: rest => do
    let j ← formatErrorsEntry err
    let js ← formatErrorsList rest
    pure (j :: js)

/-- `utils.format_errors`: `json.dumps([...], indent=2)` of the per-error
entries (the JSON array stands for its serialisation). -/
def format_errors (errors : List GErr) : PyM Json := do
  let js ← formatErrorsList errors
  pure (Json.arr js)

/-- Pure companion of `format_errors`. -/
def formatErrorsP (errors : List GErr) : Json :=
  Json.arr (errors.map formatErrorsEntryP)

/-- `utils.format_error_traceback`: `""` for `None`, otherwise the
traceback of the exception limited to `limit` stack lines (the output of
`traceback.print_exception(type(error), error, error.__traceback__,
limit=limit)` modelled from the object's traceback lines). -/
def format_error_traceback (error : PyBase) (limit : Nat := 20) : String :=
  if error.isNone then ""
  else String.intercalate "\n" (error.tb.take limit)

/-- `utils.format_errors_traceback`: tracebacks of the original errors of
the entries that are `Exception` instances, joined by blank lines. -/
def format_errors_traceback (errors : List GErr) : String :=
  String.intercalate "\n\n"
    ((errors.filter (fun e => e.isExc)).map
      (fun e => format_error_traceback (original_error e)))

/-- `utils._err_msg`: `str(original_error(error))`. -/
def errMsg (error : GErr) : String :=
  (original_error error).strRepr

/-- `utils.format_errors_msg`: the single error's message when there is
exactly one error, else a JSON array of the messages of the entries that
are `Exception` instances.  The `errors[0]` access is raw indexing,
guarded by the length test. -/
def format_errors_msg (errors : List GErr) : PyM Json :=
  if errors.length == 1 then do
    let e ← match errors.get? 0 with
            | some e => pure e
            | none => Except.error PyExc.indexError
    pure (Json.str (errMsg e))
  else
    pure (Json.arr
      ((errors.filter (fun e => e.isExc)).map (fun e => Json.str (errMsg e))))

/-- Pure companion of `format_errors_msg`. -/
def formatErrorsMsgP (errors : List GErr) : Json :=
  match errors with
  | [e] => Json.str (errMsg e)
  | _ => Json.arr
      ((errors.filter (fun e => e.isExc)).map (fun e => Json.str (errMsg e)))

/-- `utils._err_type`: `type(original_error(error)).__name__`. -/
def errType (error : GErr) : String :=
  (original_error error).typeName

/-- `utils.format_errors_type`: like `format_errors_msg` but with type
names. -/
def format_errors_type (errors : List GErr) : PyM Json :=
  if errors.length == 1 then do
    let e ← match errors.get? 0 with
            | some e => pure e
            | none => Except.error PyExc.indexError
    pure (Json.str (errType e))
  else
    pure (Json.arr
      ((errors.filter (fun e => e.isExc)).map (fun e => Json.str (errType e))))

/-- Pure companion of `format_errors_type`. -/
def formatErrorsTypeP (errors : List GErr) : Json :=
  match errors with
  | [e] => Json.str (errType e)
  | _ => Json.arr
      ((errors.filter (fun e => e.isExc)).map (fun e => Json.str (errType e)))

/-- `utils.is_server_error`.  `errors` is the filtered list (or `None`),
`invalid_value` is the library-supplied `invalid` attribute when present,
otherwise derived as `bool(result.errors and result.data is None)`; the
final expression mirrors the source's two-disjunct boolean (the raw
`len(result.errors)`/`result.errors[0]` accesses only evaluate on paths
where `result.errors` is a list, which the short-circuit guarantees). -/
def is_server_error (result : ExecutionResult) (ignore_exceptions : List String) : Bool :=
  let errors : Option (List GErr) :=
    match result.errors with
    | none => none
    | some es =>
        some (es.filter (fun e =>
          !(ignore_exceptions.contains (original_error e).typeName)))
  let invalid_value : Bool :=
    match result.invalid with
    | some b => b
    | none => errorsTruthy result && result.data.isNone
  let errsT : Bool :=
    match errors with
    | some l => !l.isEmpty
    | none => false
  let rawLen1 : Bool := (rawErrors result).length == 1
  let firstNotGQL : Bool :=
    match rawErrors result with
    | e :: _ => !e.isGraphQLError
    | [] => false
  (errsT && !invalid_value) || (errsT && invalid_value && rawLen1 && firstNotGQL)

/-! Character-level model of Python `str` operations used by
`resolve_query_res`. -/

/-- Characters matched by the regex class in `re.split('[({]', query, 1)`. -/
def notSplitChar (c : Char) : Bool :=
  !(c == '(' || c == '\x7b')

/-- Python `str.strip()` whitespace characters. -/
def pyIsSpace (c : Char) : Bool :=
  c == ' ' || c == '\t' || c == '\n' || c == '\r' || c == '\x0b' || c == '\x0c'

/-- Python `str.strip()`: drop whitespace from both ends. -/
def pyStripChars (s : List Char) : List Char :=
  ((s.dropWhile pyIsSpace).reverse.dropWhile pyIsSpace).reverse

/-- `utils.resolve_query_res` at the character level:
`re.split('[({]', query, 1)[0]` is the longest prefix free of `(` and
`{`, then `.strip()`, then `or query` (empty string is falsy). -/
def resolveQueryResChars (q : List Char) : List Char :=
  let pre := pyStripChars (q.takeWhile notSplitChar)
  if pre.isEmpty then q else pre

/-- `utils.resolve_query_res`. -/
def resolve_query_res (query : String) : String :=
  String.mk (resolveQueryResChars query.data)

/-! ## Query extraction (`utils.get_request_string` / `get_query_string`) -/

/-- `graphql.language.source.Source`: documents retain the source body
they were parsed from. -/
structure GraphQLSource where
  body : String
deriving Repr, DecidableEq

/-- A graphql `Location` node: points back at its source. -/
structure SourceLocation where
  source : GraphQLSource
deriving Repr, DecidableEq

/-- A parsed graphql document (AST root) with its retained location. -/
structure DocumentNode where
  loc : SourceLocation
deriving Repr, DecidableEq

/-- A Python value as it may appear among the wrapped call's arguments:
the `None` object, a string, a parsed document, or some other object
(schema, context, ...) identified by a display name. -/
inductive PyVal where
  | none : PyVal
  | str : String → PyVal
  | doc : DocumentNode → PyVal
  | obj : String → PyVal
deriving Repr, DecidableEq

/-- Python truthiness of an argument value (`''` and `None` are falsy;
documents and other objects are truthy). -/
def pyTruthy : PyVal → Bool
  | PyVal.none => false
  | PyVal.str s => !(s == "")
  | PyVal.doc _ => true
  | PyVal.obj _ => true

/-- `str()` of an argument value, for tag coercion. -/
def pyStr : PyVal → String
  | PyVal.none => "None"
  | PyVal.str s => s
  | PyVal.doc d => d.loc.source.body
  | PyVal.obj n => n

/-- The keyword arguments of the wrapped call that this package inspects
(`kwargs.get` of a missing key is Python `None`). -/
structure Kwargs where
  request_string : Option PyVal
  source : Option PyVal
deriving Repr, DecidableEq

/-- `kwargs.get(key)`: the stored value, or `None` when absent. -/
def kwargsGet (v : Option PyVal) : PyVal :=
  v.getD PyVal.none

/-- `utils.get_request_string`: `args[1] if len(args) > 1 else
kwargs.get('request_string') or kwargs.get('source')` (Python `or` falls
through on falsy values). -/
def get_request_string (args : List PyVal) (kwargs : Kwargs) : PyVal :=
  if args.length > 1 then (args.get? 1).getD PyVal.none
  else
    let a := kwargsGet kwargs.request_string
    if pyTruthy a then a else kwargsGet kwargs.source

/-- `utils.get_query_string`: `rs.loc.source.body if isinstance(rs,
DocumentNode) else rs`. -/
def get_query_string (args : List PyVal) (kwargs : Kwargs) : PyVal :=
  match get_request_string args kwargs with
  | PyVal.doc d => PyVal.str d.loc.source.body
  | rs => rs

/-! ## ddtrace_graphql/base.py -/

def TYPE : String := "graphql"
def QUERY : String := "query"
def ERRORS : String := "errors"
def INVALID : String := "invalid"
def CLIENT_ERROR : String := "client_error"
def DATA_EMPTY : String := "data_empty"
def RES_NAME : String := "graphql.graphql"
def SERVICE : String := "graphql"
def ERROR_STACK : String := "error.stack"
def ERROR_MSG : String := "error.msg"
def ERROR_TYPE : String := "error.type"

/-- A ddtrace span as this package drives it: identifying fields, the
error flag, tags and metrics (most recent setting first; lookups return
the most recent value). -/
structure Span where
  name : String
  spanType : String
  service : String
  resource : String
  error : Int
  tags : List (String × Json)
  metrics : List (String × Int)
deriving Repr

/-- `span.set_tag(key, value)`. -/
def setTag (s : Span) (k : String) (v : Json) : Span :=
  { s with tags := (k, v) :: s.tags }

/-- `span.get_tag(key)`. -/
def getTag (s : Span) (k : String) : Option Json :=
  (s.tags.find? (fun p => p.1 == k)).map (fun p => p.2)

/-- `span.set_metric(key, value)`. -/
def setMetric (s : Span) (k : String) (v : Int) : Span :=
  { s with metrics := (k, v) :: s.metrics }

/-- `span.get_metric(key)`. -/
def getMetric (s : Span) (k : String) : Option Int :=
  (s.metrics.find? (fun p => p.1 == k)).map (fun p => p.2)

/-- `base._process_result`: annotate `span` from `result`.  The
`span_callback` invocation that follows (handing `result` and the span to
a caller-supplied external sink) has no effect on the span state modelled
here and is omitted. -/
def processResult (result : Option ExecutionResult) (span0 : Span)
    (ignore_exceptions : List String) : PyM Span :=
  match result with
  | some result => do
    let span := { span0 with error := 0 }
    let span ←
      if errorsTruthy result then do
        let errs := rawErrors result
        let jErrors ← format_errors errs
        let span := setTag span ERRORS jErrors
        let span := setTag span ERROR_STACK
          (Json.str (format_errors_traceback errs))
        let jMsg ← format_errors_msg errs
        let span := setTag span ERROR_MSG jMsg
        let jType ← format_errors_type errs
        let span := setTag span ERROR_TYPE jType
        pure { span with
          error := if is_server_error result ignore_exceptions then 1 else 0 }
      else pure span
    let span := setMetric span CLIENT_ERROR
      (if span.error == 0 && errorsTruthy result then 1 else 0)
    let span := setMetric span INVALID
      (match result.invalid with
       | some b => if b then 1 else 0
       | none => 0)
    let span := setMetric span DATA_EMPTY
      (if result.data.isNone then 1 else 0)
    pure span
  | none => pure { span0 with error := 1 }

/-- Pure companion of `processResult` for a present result. -/
def processResultP (result : ExecutionResult) (span0 : Span)
    (ignore_exceptions : List String) : Span :=
  let span := { span0 with error := 0 }
  let span :=
    if errorsTruthy result then
      let errs := rawErrors result
      let span := setTag span ERRORS (formatErrorsP errs)
      let span := setTag span ERROR_STACK
        (Json.str (format_errors_traceback errs))
      let span := setTag span ERROR_MSG (formatErrorsMsgP errs)
      let span := setTag span ERROR_TYPE (formatErrorsTypeP errs)
      { span with
        error := if is_server_error result ignore_exceptions then 1 else 0 }
    else span
  let span := setMetric span CLIENT_ERROR
    (if span.error == 0 && errorsTruthy result then 1 else 0)
  let span := setMetric span INVALID
    (match result.invalid with
     | some b => if b then 1 else 0
     | none => 0)
  setMetric span DATA_EMPTY (if result.data.isNone then 1 else 0)

/-- `re.split('[({]', query, 1)` requires a string: the resource
computation in `traced_graphql_wrapped` raises `TypeError` when the
extracted query is not one (e.g. Python `None`). -/
def resolveQueryResPy (v : PyVal) : PyM String :=
  match v with
  | PyVal.str s => Except.ok (resolve_query_res s)
  | _ => Except.error (PyExc.typeError "expected string or bytes-like object")

/-- Python `dict.update`: overriding entries win, new keys are appended. -/
def dictUpdate (base upd : List (String × String)) : List (String × String) :=
  (base.map (fun p =>
    match upd.find? (fun q => q.1 == p.1) with
    | some q => q
    | none => p))
  ++ upd.filter (fun q => (base.find? (fun p => p.1 == q.1)).isNone)

/-- `tracer.trace(**span_kwargs)`: a fresh span built from the keyword
dictionary. -/
def mkSpan (skw : List (String × String)) : Span :=
  { name := ((skw.find? (fun p => p.1 == "name")).map (fun p => p.2)).getD ""
    spanType := ((skw.find? (fun p => p.1 == "span_type")).map (fun p => p.2)).getD ""
    service := ((skw.find? (fun p => p.1 == "service")).map (fun p => p.2)).getD ""
    resource := ((skw.find? (fun p => p.1 == "resource")).map (fun p => p.2)).getD ""
    error := 0
    tags := []
    metrics := [] }

/-- `base.traced_graphql_wrapped`, synchronous path.  `enabled` is
`tracer.enabled`, `serviceEnv` is `os.getenv(DDTRACE_GRAPHQL_SERVICE)`,
`func` is the wrapped execution callable (returning the execution result
or `None`).  Returns the value handed back to the caller together with
the list of spans emitted.  The asynchronous branch (taken only when
`func` returns a coroutine) and the `span_callback` hand-off are outside
this synchronous model. -/
def traced_graphql_wrapped (enabled : Bool)
    (func : List PyVal → Kwargs → Option ExecutionResult)
    (args : List PyVal) (kwargs : Kwargs)
    (span_kwargs : List (String × String))
    (ignore_exceptions : List String)
    (serviceEnv : Option String) : PyM (Option ExecutionResult × List Span) :=
  if !enabled then Except.ok (func args kwargs, [])
  else do
    let query := get_query_string args kwargs
    let res ← resolveQueryResPy query
    let skw := dictUpdate
      [("name", RES_NAME), ("span_type", TYPE),
       ("service", serviceEnv.getD SERVICE), ("resource", res)]
      span_kwargs
    let result := func args kwargs
    let span := mkSpan skw
    let span := setTag span QUERY (Json.str (pyStr query))
    let span ← processResult result span ignore_exceptions
    Except.ok (result, [span])

/-! ## Supporting lemmas -/

theorem format_error_ok (e : GErr) :
    format_error e = Except.ok (formatErrorP e) := by
  unfold format_error formatErrorP getattrOr
  cases hf : e.formatted <;> cases hm : e.message <;>
    simp [hf, hm, pure, Except.pure, Bind.bind, Except.bind]

theorem formatErrorsEntry_ok (e : GErr) :
    formatErrorsEntry e = Except.ok (formatErrorsEntryP e) := by
  unfold formatErrorsEntry formatErrorsEntryP
  cases hm : e.message <;> simp [hm, format_error_ok, pure, Except.pure]

theorem formatErrorsList_ok (l : List GErr) :
    formatErrorsList l = Except.ok (l.map formatErrorsEntryP) := by
  induction l with
  | nil => rfl
  | cons e rest ih =>
    simp [formatErrorsList, formatErrorsEntry_ok, ih, Bind.bind, Except.bind,
      pure, Except.pure]

theorem format_errors_ok (l : List GErr) :
    format_errors l = Except.ok (formatErrorsP l) := by
  simp [format_errors, formatErrorsList_ok, formatErrorsP]

theorem format_errors_msg_ok (l : List GErr) :
    format_errors_msg l = Except.ok (formatErrorsMsgP l) := by
  match l with
  | [] => rfl
  | [e] => rfl
  | e1 :: e2 :: rest => rfl

theorem format_errors_type_ok (l : List GErr) :
    format_errors_type l = Except.ok (formatErrorsTypeP l) := by
  match l with
  | [] => rfl
  | [e] => rfl
  | e1 :: e2 :: rest => rfl

theorem processResult_some_ok (r : ExecutionResult) (span : Span)
    (ig : List String) :
    processResult (some r) span ig = Except.ok (processResultP r span ig) := by
  unfold processResult processResultP
  cases he : errorsTruthy r <;>
    simp [he, format_errors_ok, format_errors_msg_ok, format_errors_type_ok,
      pure, Except.pure, Bind.bind, Except.bind]

theorem getMetric_setMetric_self (s : Span) (k : String) (v : Int) :
    getMetric (setMetric s k v) k = some v := by
  simp [getMetric, setMetric]

theorem getMetric_setMetric_ne (s : Span) (k k2 : String) (v : Int)
    (h : (k == k2) = false) :
    getMetric (setMetric s k v) k2 = getMetric s k2 := by
  simp [getMetric, setMetric, List.find?, h]

theorem getTag_setMetric (s : Span) (k k2 : String) (v : Int) :
    getTag (setMetric s k v) k2 = getTag s k2 := rfl

theorem getTag_setTag_self (s : Span) (k : String) (v : Json) :
    getTag (setTag s k v) k = some v := by
  simp [getTag, setTag]

theorem getTag_setTag_ne (s : Span) (k k2 : String) (v : Json)
    (h : (k == k2) = false) :
    getTag (setTag s k v) k2 = getTag s k2 := by
  simp [getTag, setTag, List.find?, h]

theorem error_setMetric (s : Span) (k : String) (v : Int) :
    (setMetric s k v).error = s.error := rfl

theorem error_setTag (s : Span) (k : String) (v : Json) :
    (setTag s k v).error = s.error := rfl

/-! ## Spec-side definitions (written from the spec's words, for the
claims that compare the code against them) -/

/-- Spec §4.3 step 1: the errors whose underlying original exception's
type is not a member of the ExclusionSet. -/
def relevant_errors (result : ExecutionResult) (ignore : List String) : List GErr :=
  (rawErrors result).filter (fun e =>
    !(ignore.contains (original_error e).typeName))

/-- Spec §4.3 step 2: the `invalid` indicator — the library-supplied flag
when present, otherwise "there are errors AND no data was produced". -/
def invalid_indicator (result : ExecutionResult) : Bool :=
  match result.invalid with
  | some b => b
  | none => errorsTruthy result && result.data.isNone

/-- Spec §4.2: the index of the first occurrence of `(` or `{`, whichever
comes first (length of the list when neither occurs). -/
def firstSplitIdx (q : List Char) : Nat :=
  min (q.findIdx (fun c => c == '(')) (q.findIdx (fun c => c == '\x7b'))

/-- Spec §4.2 resource naming, as worded: take the text before the first
`(`-or-`{` split point, trim whitespace, and fall back to the full query
when that is empty. -/
def resourceNameSpec (q : List Char) : List Char :=
  let pre := pyStripChars (q.take (firstSplitIdx q))
  if pre.isEmpty then q else pre

theorem takeWhile_eq_take_firstSplitIdx (q : List Char) :
    q.takeWhile notSplitChar = q.take (firstSplitIdx q) := by
  induction q with
  | nil => rfl
  | cons c t ih =>
    rw [List.takeWhile_cons]
    by_cases h1 : c = '('
    · have hb1 : (c == '(') = true := by simp [h1]
      simp [notSplitChar, hb1, firstSplitIdx, List.findIdx_cons]
    · have hb1 : (c == '(') = false := by simp [h1]
      by_cases h2 : c = '\x7b'
      · have hb2 : (c == '\x7b') = true := by simp [h2]
        simp [notSplitChar, hb1, hb2, firstSplitIdx, List.findIdx_cons]
      · have hb2 : (c == '\x7b') = false := by simp [h2]
        have hn : notSplitChar c = true := by simp [notSplitChar, hb1, hb2]
        rw [if_pos hn]
        show c :: List.takeWhile notSplitChar t = _
        rw [ih, firstSplitIdx, firstSplitIdx, List.findIdx_cons,
          List.findIdx_cons, hb1, hb2]
        show c :: List.take
            (min (t.findIdx (fun c => c == '('))
              (t.findIdx (fun c => c == '\x7b'))) t
          = List.take
              ((t.findIdx (fun c => c == '(') + 1) ⊓
                (t.findIdx (fun c => c == '\x7b') + 1)) (c :: t)
        rw [Nat.add_min_add_right, List.take_succ_cons]

/-- `is_server_error` restated through the spec-side abbreviations. -/
theorem is_server_error_eq (r : ExecutionResult) (ig : List String) :
    is_server_error r ig =
      ((!(relevant_errors r ig).isEmpty && !(invalid_indicator r)) ||
       (!(relevant_errors r ig).isEmpty && invalid_indicator r &&
         ((rawErrors r).length == 1) &&
         (match rawErrors r with
          | e :: _ => !e.isGraphQLError
          | [] => false))) := by
  unfold is_server_error relevant_errors invalid_indicator rawErrors
  cases hre : r.errors <;> simp [hre]

/-- C1: for every ExecutionResult and ExclusionSet, `is_server_error`
returns true iff the errors filtered of excluded original-exception types
(`relevant_errors`) are non-empty and the invalid indicator is false, OR
`relevant_errors` is non-empty, the indicator is true, the raw errors
list has exactly one entry, and that single entry is not a GraphQLError;
the indicator being the explicit `invalid` flag when supplied and
otherwise derived as "errors present and data is null". -/
theorem c1_is_server_error_spec (r : ExecutionResult) (ig : List String) :
    is_server_error r ig = true ↔
      ((relevant_errors r ig ≠ [] ∧ invalid_indicator r = false) ∨
       (relevant_errors r ig ≠ [] ∧ invalid_indicator r = true ∧
         (rawErrors r).length = 1 ∧
         ∀ e ∈ rawErrors r, e.isGraphQLError = false)) := by
  rw [is_server_error_eq]
  rcases hr : rawErrors r with _ | ⟨e, t⟩
  · simp [relevant_errors, hr]
  · rcases t with _ | ⟨e2, t2⟩
    · cases hb : invalid_indicator r <;> cases hg : e.isGraphQLError <;>
        simp [relevant_errors, hr, hb, hg, List.isEmpty_eq_false]
    · have hne : ¬((e :: e2 :: t2).length = 1) := by
        simp only [List.length_cons]
        omega
      have hlen : ((e :: e2 :: t2).length == 1) = false := by
        exact beq_eq_false_iff_ne.mpr hne
      cases hb : invalid_indicator r <;>
        simp [relevant_errors, hr, hb, hlen, hne, List.isEmpty_eq_false]

/-- C7: for every query string `q`, `resolve_query_res q` is the prefix
of `q` up to the first occurrence of `(` or `{` (whichever comes first),
with surrounding whitespace trimmed; if that trimmed prefix is empty it
is `q` itself.  (Determinism and purity are inherent: it is a function of
`q` alone.) -/
theorem c7_resource_name_spec (q : String) :
    resolve_query_res q = String.mk (resourceNameSpec q.data) := by
  unfold resolve_query_res resolveQueryResChars resourceNameSpec
  rw [takeWhile_eq_take_firstSplitIdx]

/-- Spec §8 example: a query starting with `{` falls back to itself. -/
theorem resolve_query_res_braces : resolve_query_res "\x7b hello \x7d" = "\x7b hello \x7d" := by
  decide

/-- Spec §8 example: arguments are cut at `(`. -/
theorem resolve_query_res_args :
    resolve_query_res "mutation fnCall(args: Args) \x7b \x7d" = "mutation fnCall" := by
  decide

/-- Spec §8 example: selection sets are cut at `{`. -/
theorem resolve_query_res_sel :
    resolve_query_res "mutation fnCall \x7b \x7d" = "mutation fnCall" := by
  decide

/-! ## Structure of the annotated span -/

theorem processResultP_error (r : ExecutionResult) (s : Span) (ig : List String) :
    (processResultP r s ig).error =
      if errorsTruthy r then (if is_server_error r ig then 1 else 0) else 0 := by
  unfold processResultP
  cases he : errorsTruthy r <;> simp [he, setMetric, setTag]

theorem processResultP_client_error (r : ExecutionResult) (s : Span) (ig : List String) :
    getMetric (processResultP r s ig) CLIENT_ERROR =
      some (if !(is_server_error r ig) && errorsTruthy r then 1 else 0) := by
  unfold processResultP
  cases he : errorsTruthy r <;> cases hs : is_server_error r ig <;>
    simp [he, hs, setMetric, setTag, getMetric, CLIENT_ERROR, INVALID, DATA_EMPTY,
      List.find?]

theorem processResultP_invalid (r : ExecutionResult) (s : Span) (ig : List String) :
    getMetric (processResultP r s ig) INVALID =
      some (match r.invalid with
            | some b => if b then 1 else 0
            | none => 0) := by
  unfold processResultP
  cases he : errorsTruthy r <;>
    simp [he, setMetric, setTag, getMetric, CLIENT_ERROR, INVALID, DATA_EMPTY,
      List.find?]

theorem processResultP_data_empty (r : ExecutionResult) (s : Span) (ig : List String) :
    getMetric (processResultP r s ig) DATA_EMPTY =
      some (if r.data.isNone then 1 else 0) := by
  unfold processResultP
  cases he : errorsTruthy r <;>
    simp [he, setMetric, setTag, getMetric, DATA_EMPTY, List.find?]

theorem processResultP_tags (r : ExecutionResult) (s : Span) (ig : List String)
    (h : errorsTruthy r = true) :
    getTag (processResultP r s ig) ERRORS = some (formatErrorsP (rawErrors r)) ∧
    getTag (processResultP r s ig) ERROR_STACK =
      some (Json.str (format_errors_traceback (rawErrors r))) ∧
    getTag (processResultP r s ig) ERROR_MSG =
      some (formatErrorsMsgP (rawErrors r)) ∧
    getTag (processResultP r s ig) ERROR_TYPE =
      some (formatErrorsTypeP (rawErrors r)) := by
  unfold processResultP
  simp [h, setMetric, setTag, getTag, ERRORS, ERROR_STACK, ERROR_MSG, ERROR_TYPE,
    List.find?]

theorem is_server_error_all_excluded (r : ExecutionResult) (ig : List String)
    (h : ∀ e ∈ rawErrors r, (original_error e).typeName ∈ ig) :
    is_server_error r ig = false := by
  rw [is_server_error_eq]
  have hrel : relevant_errors r ig = [] := by
    rw [relevant_errors, List.filter_eq_nil_iff]
    intro e he
    simp [h e he]
  simp [hrel]

/-! ## Concrete inputs used by witnesses and counterexamples -/

/-- A resolver exception wrapped into a graphql error entry. -/
def exOrig : PyBase :=
  { strRepr := "Testing stuff", typeName := "TestException", isExc := true,
    isNone := false, tb := ["Traceback (most recent call last):", "  boom"] }

/-- A well-formed GraphQLError wrapper around `exOrig`. -/
def exWrapped : GErr :=
  { strRepr := "Testing stuff", typeName := "GraphQLError", isExc := true,
    isNone := false, tb := [], isGraphQLError := true,
    message := some "Testing stuff", formatted := none, original := some exOrig }

/-- A malformed error object: no message, no formatted form, no original
error, not an exception. -/
def exMalformed : GErr :=
  { strRepr := "<weird object>", typeName := "Weird", isExc := false,
    isNone := false, tb := [], isGraphQLError := false,
    message := none, formatted := none, original := none }

/-- A result with one resolver error and no data. -/
def exErrResult : ExecutionResult :=
  { data := none, errors := some [exWrapped], invalid := none }

/-- A clean result: data, no errors. -/
def exCleanResult : ExecutionResult :=
  { data := some (Json.obj [("hello", Json.str "world")]), errors := none,
    invalid := none }

/-- A result carrying only the malformed error object. -/
def exMalformedResult : ExecutionResult :=
  { data := some (Json.str "some data"), errors := some [exMalformed],
    invalid := none }

/-- An empty span, as `tracer.trace` would open it. -/
def exSpan : Span :=
  { name := RES_NAME, spanType := TYPE, service := SERVICE, resource := "",
    error := 0, tags := [], metrics := [] }

/-! ## Claims about the classifier -/

/-- C3: for every classified call, an absent/null ExecutionResult sets the
span's error flag to 1, and a present result with no errors leaves it 0. -/
theorem c3_error_flag_total_failure_and_clean (span : Span) (ig : List String)
    (r : ExecutionResult) :
    (processResult none span ig = Except.ok { span with error := 1 }) ∧
    (errorsTruthy r = false →
      ∃ s, processResult (some r) span ig = Except.ok s ∧ s.error = 0) := by
  refine ⟨rfl, fun h => ⟨processResultP r span ig, processResult_some_ok r span ig, ?_⟩⟩
  rw [processResultP_error, h]
  rfl

/-- Witness for C3 at concrete inputs. -/
theorem c3_witness :
    (processResult none exSpan [] = Except.ok { exSpan with error := 1 }) ∧
    (∃ s, processResult (some exCleanResult) exSpan [] = Except.ok s ∧
      s.error = 0) :=
  ⟨(c3_error_flag_total_failure_and_clean exSpan [] exCleanResult).1,
   (c3_error_flag_total_failure_and_clean exSpan [] exCleanResult).2 rfl⟩

/-- C4: when every error's underlying original exception type is in the
ExclusionSet (and errors are present), the error flag is 0 and the
`client_error` metric is 1; in general `client_error` is 1 exactly when
the result is not classified a server error and errors are present. -/
theorem c4_client_error_metric (r : ExecutionResult) (ig : List String)
    (span : Span) :
    (errorsTruthy r = true →
      (∀ e ∈ rawErrors r, (original_error e).typeName ∈ ig) →
      ∃ s, processResult (some r) span ig = Except.ok s ∧
        s.error = 0 ∧ getMetric s CLIENT_ERROR = some 1) ∧
    (∃ s, processResult (some r) span ig = Except.ok s ∧
      getMetric s CLIENT_ERROR =
        some (if is_server_error r ig = false ∧ errorsTruthy r = true
              then 1 else 0)) := by
  constructor
  · intro ht hall
    have hsrv : is_server_error r ig = false := is_server_error_all_excluded r ig hall
    refine ⟨processResultP r span ig, processResult_some_ok r span ig, ?_, ?_⟩
    · rw [processResultP_error, ht, hsrv]
      rfl
    · rw [processResultP_client_error, hsrv, ht]
      rfl
  · refine ⟨processResultP r span ig, processResult_some_ok r span ig, ?_⟩
    rw [processResultP_client_error]
    cases hs : is_server_error r ig <;> cases ht : errorsTruthy r <;> simp

/-- Witness for C4 at concrete inputs: the single error's original
exception type is excluded. -/
theorem c4_witness :
    (∃ s, processResult (some exErrResult) exSpan ["TestException"] = Except.ok s ∧
      s.error = 0 ∧ getMetric s CLIENT_ERROR = some 1) ∧
    (∃ s, processResult (some exErrResult) exSpan ["TestException"] = Except.ok s ∧
      getMetric s CLIENT_ERROR =
        some (if is_server_error exErrResult ["TestException"] = false ∧
              errorsTruthy exErrResult = true then 1 else 0)) :=
  ⟨(c4_client_error_metric exErrResult ["TestException"] exSpan).1 rfl
     (by decide),
   (c4_client_error_metric exErrResult ["TestException"] exSpan).2⟩

/-- C10: whenever errors are present, all four error tags (`errors`,
`error.stack`, `error.msg`, `error.type`) are attached to the span, for
every ExclusionSet — in particular also when the final error flag is 0. -/
theorem c10_error_tags_unconditional (r : ExecutionResult) (span : Span)
    (ig : List String) (h : errorsTruthy r = true) :
    ∃ s, processResult (some r) span ig = Except.ok s ∧
      getTag s ERRORS = some (formatErrorsP (rawErrors r)) ∧
      getTag s ERROR_STACK =
        some (Json.str (format_errors_traceback (rawErrors r))) ∧
      getTag s ERROR_MSG = some (formatErrorsMsgP (rawErrors r)) ∧
      getTag s ERROR_TYPE = some (formatErrorsTypeP (rawErrors r)) :=
  ⟨processResultP r span ig, processResult_some_ok r span ig,
   processResultP_tags r span ig h⟩

/-- Witness for C10 at concrete inputs, with an ExclusionSet that makes
the final error flag 0. -/
theorem c10_witness :
    ∃ s, processResult (some exErrResult) exSpan ["TestException"] = Except.ok s ∧
      getTag s ERRORS = some (formatErrorsP (rawErrors exErrResult)) ∧
      getTag s ERROR_STACK =
        some (Json.str (format_errors_traceback (rawErrors exErrResult))) ∧
      getTag s ERROR_MSG = some (formatErrorsMsgP (rawErrors exErrResult)) ∧
      getTag s ERROR_TYPE = some (formatErrorsTypeP (rawErrors exErrResult)) :=
  c10_error_tags_unconditional exErrResult exSpan ["TestException"] rfl

/-- C6: for every result with errors present — including malformed error
objects missing `message`/`formatted`/`original_error` or not being
exceptions — classification never raises and still attaches the span
annotation; an entry with no `message` attribute degrades to the
stringified object. -/
theorem c6_classification_never_raises (r : ExecutionResult) (span : Span)
    (ig : List String) (h : errorsTruthy r = true) :
    (∃ s, processResult (some r) span ig = Except.ok s ∧
      (getTag s ERRORS).isSome) ∧
    (∀ e : GErr, e.message = none → formatErrorsEntryP e = Json.str e.strRepr) := by
  constructor
  · refine ⟨processResultP r span ig, processResult_some_ok r span ig, ?_⟩
    rw [(processResultP_tags r span ig h).1]
    rfl
  · intro e he
    simp [formatErrorsEntryP, he]

/-- Witness for C6 at a result whose only error object is malformed. -/
theorem c6_witness :
    (∃ s, processResult (some exMalformedResult) exSpan [] = Except.ok s ∧
      (getTag s ERRORS).isSome) ∧
    (∀ e : GErr, e.message = none → formatErrorsEntryP e = Json.str e.strRepr) :=
  c6_classification_never_raises exMalformedResult exSpan [] rfl

/-- C2 (code behaviour at the failing input): for a result with errors,
no data, and no explicit `invalid` attribute, the invalid indicator used
by `is_server_error` is true, yet `_process_result` emits the `invalid`
metric as 0 — `base.py` reads `int(getattr(result, 'invalid', 0))`
instead of the derived indicator, contradicting the repository's own
`test_invalid` (which expects 1). -/
theorem c2_invalid_metric_diverges :
    exErrResult.invalid = none ∧
    exErrResult.data = none ∧
    errorsTruthy exErrResult = true ∧
    invalid_indicator exErrResult = true ∧
    ∃ s, processResult (some exErrResult) exSpan [] = Except.ok s ∧
      getMetric s INVALID = some 0 :=
  ⟨rfl, rfl, rfl, rfl,
   ⟨processResultP exErrResult exSpan [],
    processResult_some_ok exErrResult exSpan [], by
      rw [processResultP_invalid]
      rfl⟩⟩

/-! ## Claims about extraction and the wrapper -/

/-- A parsed document retaining its source body. -/
def exDoc : DocumentNode :=
  { loc := { source := { body := "\x7b hello \x7d" } } }

/-- C8: a query argument supplied as a parsed document extracts to the
source text the document retains (= the text it was parsed from), and a
raw-text argument extracts to itself. -/
theorem c8_query_roundtrip (args : List PyVal) (kwargs : Kwargs) :
    (∀ (d : DocumentNode) (t : String),
      get_request_string args kwargs = PyVal.doc d → d.loc.source.body = t →
      get_query_string args kwargs = PyVal.str t) ∧
    (∀ s : String, get_request_string args kwargs = PyVal.str s →
      get_query_string args kwargs = PyVal.str s) := by
  constructor
  · intro d t hd ht
    simp [get_query_string, hd, ht]
  · intro s hs
    simp [get_query_string, hs]

/-- Witness for C8 at concrete inputs (document in the second positional
argument; raw text likewise). -/
theorem c8_witness :
    get_query_string [PyVal.obj "schema", PyVal.doc exDoc]
        (Kwargs.mk Option.none Option.none) = PyVal.str "\x7b hello \x7d" ∧
    get_query_string [PyVal.obj "schema", PyVal.str "\x7b hi \x7d"]
        (Kwargs.mk Option.none Option.none) = PyVal.str "\x7b hi \x7d" :=
  ⟨(c8_query_roundtrip [PyVal.obj "schema", PyVal.doc exDoc]
      (Kwargs.mk Option.none Option.none)).1 exDoc "\x7b hello \x7d" rfl rfl,
   (c8_query_roundtrip [PyVal.obj "schema", PyVal.str "\x7b hi \x7d"]
      (Kwargs.mk Option.none Option.none)).2 "\x7b hi \x7d" rfl⟩

/-- C9: with tracing globally disabled, the wrapper calls straight
through to the underlying execution function: the return value equals a
direct call and zero spans are emitted, for every argument list (so no
query extraction or classification runs — the equation holds even for
argument lists on which extraction would fail). -/
theorem c9_disabled_tracer_bypass
    (func : List PyVal → Kwargs → Option ExecutionResult)
    (args : List PyVal) (kwargs : Kwargs) (skw : List (String × String))
    (ig : List String) (env : Option String) :
    traced_graphql_wrapped false func args kwargs skw ig env =
      Except.ok (func args kwargs, []) := rfl

/-- C5 counterexample: with no query-like argument (one positional
argument, no `request_string`, no `source`), query extraction does not
fail at all — no `MissingQueryError` exists anywhere in the code; the
extraction functions return Python `None`. -/
theorem c5_counterexample :
    get_query_string [PyVal.obj "schema"] (Kwargs.mk Option.none Option.none) =
      PyVal.none := rfl

/-- C5 (amended): for every argument list with no query-like argument,
extraction returns `None` without raising, and the traced wrapper then
raises a `TypeError` synchronously (from `re.split` on `None` while
resolving the resource name) before the underlying execution function is
invoked — the outcome is the same for every `func`. -/
theorem c5_no_query_raises_typeerror (args : List PyVal) (kwargs : Kwargs)
    (func : List PyVal → Kwargs → Option ExecutionResult)
    (skw : List (String × String)) (ig : List String) (env : Option String)
    (hlen : args.length ≤ 1) (hrs : kwargs.request_string = Option.none)
    (hsrc : kwargs.source = Option.none) :
    get_query_string args kwargs = PyVal.none ∧
    traced_graphql_wrapped true func args kwargs skw ig env =
      Except.error (PyExc.typeError "expected string or bytes-like object") := by
  have hreq : get_request_string args kwargs = PyVal.none := by
    unfold get_request_string
    rw [if_neg (by omega : ¬(args.length > 1))]
    simp [hrs, hsrc, kwargsGet, pyTruthy]
  have hq : get_query_string args kwargs = PyVal.none := by
    simp [get_query_string, hreq]
  refine ⟨hq, ?_⟩
  simp [traced_graphql_wrapped, hq, resolveQueryResPy, Bind.bind, Except.bind]

/-- Witness for the amended C5 at concrete inputs. -/
theorem c5_witness :
    get_query_string [PyVal.obj "schema"] (Kwargs.mk Option.none Option.none) =
      PyVal.none ∧
    traced_graphql_wrapped true (fun _ _ => Option.none) [PyVal.obj "schema"]
        (Kwargs.mk Option.none Option.none) [] [] Option.none =
      Except.error (PyExc.typeError "expected string or bytes-like object") :=
  c5_no_query_raises_typeerror [PyVal.obj "schema"]
    (Kwargs.mk Option.none Option.none) (fun _ _ => Option.none) [] []
    Option.none (by decide) rfl rfl

end DdtraceGraphql
